import Mathlib

/-!
Verification development for the pasito.fun event-scripts repository.

The repository scrapes dance-event pages and republishes them as Facebook
events.  This file gives a shallow embedding of the extraction and
normalization pipeline that the specification's claims are about:

* `src/create_fb_event.py` — the time/date normalization inside
  `get_event_details_from_user`, the venue-link extraction
  `find_location_links`, the text fallback `extract_location_from_text`,
  the in-page-title heuristic of `scrape_pasito_event`, and the batch
  driver `main`.
* `src/pasito_event_scraper.py` — the partial-address fallback of
  `scrape_address_from_location_page`.
* `src/pasito_event_scripts/event_processor.py` — `process_event_data`
  and `_process_location_data`.

Machine-level conventions of the embedding:

* Wall-clock times are minutes since midnight (`Nat`); absolute instants
  are minutes since the civil epoch 1970-01-01 (`Int`).
* Python's interactive `input()` calls are modelled by a list of operator
  response strings consumed in order; an exhausted list models `EOFError`.
* Python exceptions are modelled with `Except String`.
* The `pytz` zone database is modelled by a fixed list of known zone
  names with fixed standard offsets (DST transitions are out of scope;
  no claim depends on them).
-/

/-! ## Character-list utilities (models of the Python string operations used) -/

/-- Model of Python `str.split(sep)` for a single-character separator. -/
def splitOnChar (c : Char) : List Char → List (List Char)
  | [] => [[]]
  | x :: xs =>
    let r := splitOnChar c xs
    if x = c then [] :: r
    else
      match r with
      | [] => [[x]]
      | h :: t => (x :: h) :: t

/-- Model of Python `str.strip()`: drop leading and trailing whitespace. -/
def listTrim (l : List Char) : List Char :=
  ((l.dropWhile Char.isWhitespace).reverse.dropWhile Char.isWhitespace).reverse

/-- Python `str.strip()` lifted to `String`. -/
def trimString (s : String) : String :=
  ⟨listTrim s.data⟩

/-- Model of Python `str.lower()` (ASCII case folding). -/
def lowerString (s : String) : String :=
  ⟨s.data.map Char.toLower⟩

/-- Parse a non-empty all-digit character list as a decimal number. -/
def digitsToNat? (l : List Char) : Option Nat :=
  if l ≠ [] ∧ l.all Char.isDigit then
    some (l.foldl (fun n c => n * 10 + (c.toNat - 48)) 0)
  else none

/-- Boolean list membership for strings, model of Python `x in list`. -/
def memb (y : String) : List String → Bool
  | [] => false
  | a :: as => (y == a) || memb y as

/-- Boolean prefix test on character lists. -/
def isPrefixList : List Char → List Char → Bool
  | [], _ => true
  | _ :: _, [] => false
  | a :: as, b :: bs => a = b && isPrefixList as bs

/-- Boolean substring (contiguous) test on character lists,
model of Python `needle in haystack` for strings. -/
def isInfixList (p : List Char) : List Char → Bool
  | [] => isPrefixList p []
  | l@(_ :: xs) => isPrefixList p l || isInfixList p xs

/-! ## 12-hour and 24-hour clock parsing

Models of `datetime.strptime(s, "%I:%M %p")` and
`datetime.strptime(s, "%H:%M")` from `get_event_details_from_user`
(`src/create_fb_event.py`).  A parsed clock time is returned as minutes
since midnight.  The model covers the single-space `"H:MM AM"` shape the
scraper's regex `\d{1,2}:\d{2}\s*[AP]M` produces (lowercase meridiems and
multi-space separators, which `strptime` also tolerates, do not occur in
scraped data). -/

/-- Parse `"H:MM AM"`/`"H:MM PM"` (hours 1–12) as minutes since midnight. -/
def parseTime12Chars (l : List Char) : Option Nat :=
  match splitOnChar ':' l with
  | [hs, rest] =>
    match splitOnChar ' ' rest with
    | [ms, ap] =>
      match digitsToNat? hs, digitsToNat? ms with
      | some h, some m =>
        if 1 ≤ h ∧ h ≤ 12 ∧ m ≤ 59 ∧ hs.length ≤ 2 ∧ ms.length ≤ 2 then
          if ap = ['A', 'M'] then some ((h % 12) * 60 + m)
          else if ap = ['P', 'M'] then some ((h % 12 + 12) * 60 + m)
          else none
        else none
      | _, _ => none
    | _ => none
  | _ => none

/-- The `strptime(s, "%I:%M %p")` model on a `String`. -/
def parseTime12 (s : String) : Option Nat :=
  parseTime12Chars s.data

/-- Parse `"HH:MM"` (hours 0–23) as minutes since midnight,
model of `strptime(s, "%H:%M")`. -/
def parseTime24 (s : String) : Option Nat :=
  match splitOnChar ':' s.data with
  | [hs, ms] =>
    match digitsToNat? hs, digitsToNat? ms with
    | some h, some m =>
      if h ≤ 23 ∧ m ≤ 59 ∧ hs.length ≤ 2 ∧ ms.length ≤ 2 then
        some (h * 60 + m)
      else none
    | _, _ => none
  | _ => none

/-! ## Overnight heuristic (`src/create_fb_event.py` lines 537–548)

```python
start_time_obj = datetime.strptime(start_str, "%I:%M %p")
end_time_obj = datetime.strptime(end_str, "%I:%M %p")
if end_time_obj < start_time_obj: # Handle overnight events
    end_time_obj += timedelta(days=1)
duration_hours = (end_time_obj - start_time_obj).total_seconds() / 3600
```
-/

/-- The overnight adjustment: when the parsed end time is chronologically
before the parsed start time, advance it by one day (1440 minutes). -/
def adjustEndMinutes (s e : Nat) : Nat :=
  if e < s then e + 1440 else e

/-- Event duration in minutes derived from the scraped time range. -/
def durationMinutes (s e : Nat) : Nat :=
  adjustEndMinutes s e - s

/-- Model of the `scraped_time` parsing block of
`get_event_details_from_user`: split on `'-'`, strip, parse both halves.
Python assigns `start_time_obj` before parsing the end, so when only the
end half fails the start survives (the `except ValueError` handler runs
after the partial assignment); the result is
`(start minutes?, duration minutes?)`. -/
def parseScrapedTimeHalves (t : String) : Option Nat × Option Nat :=
  match splitOnChar '-' t.data with
  | [a, b] =>
    match parseTime12Chars (listTrim a) with
    | none => (none, none)
    | some s =>
      match parseTime12Chars (listTrim b) with
      | none => (some s, none)
      | some e => (some s, some (durationMinutes s e))
  | _ => (none, none)

/-! ## Calendar model

`daysFromCivil` is the standard civil-calendar day count (days since
1970-01-01), used to model `datetime` date arithmetic. -/

/-- Is `y` a leap year (proleptic Gregorian)? -/
def isLeapYear (y : Nat) : Bool :=
  (y % 4 == 0 && y % 100 != 0) || y % 400 == 0

/-- Number of days in month `m` (1–12) of year `y`. -/
def daysInMonth (y m : Nat) : Nat :=
  if m = 2 then (if isLeapYear y then 29 else 28)
  else if m = 4 ∨ m = 6 ∨ m = 9 ∨ m = 11 then 30
  else 31

/-- Days since 1970-01-01 of the civil date `y-m-d`. -/
def daysFromCivil (y m d : Nat) : Int :=
  let y' : Int := if m ≤ 2 then (y : Int) - 1 else (y : Int)
  let era : Int := (if 0 ≤ y' then y' else y' - 399) / 400
  let yoe : Int := y' - era * 400
  let mp : Int := ((m : Int) + 9) % 12
  let doy : Int := (153 * mp + 2) / 5 + (d : Int) - 1
  let doe : Int := yoe * 365 + yoe / 4 - yoe / 100 + doy
  era * 146097 + doe - 719468

/-- Model of `datetime.strptime(s, "%Y-%m-%d")`: a four-digit year, a
month 1–12, and a day valid for that month. -/
def parseDateYMDChars (l : List Char) : Option (Nat × Nat × Nat) :=
  match splitOnChar '-' l with
  | [ys, ms, ds] =>
    match digitsToNat? ys, digitsToNat? ms, digitsToNat? ds with
    | some y, some m, some d =>
      if ys.length = 4 ∧ ms.length ≤ 2 ∧ ds.length ≤ 2 ∧
         1 ≤ m ∧ m ≤ 12 ∧ 1 ≤ d ∧ d ≤ daysInMonth y m then
        some (y, m, d)
      else none
    | _, _, _ => none
  | _ => none

/-- The `strptime(s, "%Y-%m-%d")` model on a `String`. -/
def parseDateYMD (s : String) : Option (Nat × Nat × Nat) :=
  parseDateYMDChars s.data

/-- The three-letter month abbreviations recognised by `strptime`'s `%b`. -/
def monthAbbrevs : List String :=
  ["Jan", "Feb", "Mar", "Apr", "May", "Jun",
   "Jul", "Aug", "Sep", "Oct", "Nov", "Dec"]

/-- Case-insensitive month-abbreviation lookup (1-based),
model of `%b` matching. -/
def parseMonthAbbrev (s : String) : Option Nat :=
  (monthAbbrevs.findIdx? (fun m => lowerString m == lowerString s)).map (· + 1)

/-- Model of `datetime.strptime(f"{scraped_date} {current_year}", "%b %d %Y")`
where `scraped_date` is `"<Mon> <day>"`: yields the civil date
`(year, month, day)` or fails like `strptime`/`datetime` would. -/
def parseMonthDayYear (scrapedDate : String) (year : Nat) : Option (Nat × Nat × Nat) :=
  match splitOnChar ' ' scrapedDate.data with
  | [mons, days] =>
    match parseMonthAbbrev ⟨mons⟩, digitsToNat? days with
    | some m, some d =>
      if 1 ≤ d ∧ d ≤ daysInMonth year m ∧ days.length ≤ 2 then
        some (year, m, d)
      else none
    | _, _ => none
  | _ => none

/-! ## Timezone model

`pytz.timezone` raises `UnknownTimeZoneError` for names outside its zone
database; the database is modelled by a fixed list of names with fixed
standard offsets (minutes east of UTC).  DST transitions are out of the
model's scope; no claim depends on them. -/

/-- The zone names the model's `pytz` knows. -/
def knownTimezones : List String :=
  ["America/Denver", "America/New_York", "America/Chicago",
   "America/Los_Angeles", "UTC"]

/-- Model of `pytz.timezone`: `some` canonical zone for a known name,
`none` for `UnknownTimeZoneError`. -/
def pytzTimezone (name : String) : Option String :=
  if memb name knownTimezones then some name else none

/-- Fixed standard offset of a modelled zone, minutes east of UTC. -/
def zoneOffsetMin (z : String) : Int :=
  if z = "America/Denver" then -420
  else if z = "America/New_York" then -300
  else if z = "America/Chicago" then -360
  else if z = "America/Los_Angeles" then -480
  else 0

/-- Model of `src/create_fb_event.py` lines 570–574:
```python
timezone_str = input(f"- Timezone [America/Denver]: ") or "America/Denver"
try:
    tz = pytz.timezone(timezone_str)
except pytz.UnknownTimeZoneError:
    tz = pytz.timezone("America/Denver")
```
Returns `(timezone_str, tz)`: the recorded zone name and the zone the
instants are actually computed in. -/
def resolveTimezone (resp : String) : String × String :=
  let timezoneStr := if resp = "" then "America/Denver" else resp
  (timezoneStr, (pytzTimezone timezoneStr).getD "America/Denver")

/-! ## Python `float()` for the duration prompt

`float(input(...))` parses the operator's duration in hours; the model
converts it directly to minutes.  It covers the plain `"D"` and `"D.D…"`
decimal shapes (exponents, signs, leading/trailing dots and `inf`/`nan`
are outside the model; no claim depends on them); fractional digits
beyond the precision of a minute are truncated. -/

/-- Parse a decimal number of hours as a whole number of minutes. -/
def parseFloatMinutes (s : String) : Option Nat :=
  match splitOnChar '.' (listTrim s.data) with
  | [a] => (digitsToNat? a).map (· * 60)
  | [a, b] =>
    match digitsToNat? a, digitsToNat? b with
    | some ia, some ib => some (ia * 60 + ib * 60 / 10 ^ b.length)
    | _, _ => none
  | _ => none

/-! ## Data model for event details

`scrape_address_from_location_page` and `extract_location_from_text`
both return dictionaries of the shape
`{"is_online": ..., "place": {"name","street","city","state","zip","country"}}`;
`get_event_details_from_user` merges one into its result. -/

/-- The `place` dictionary of the Facebook payload. -/
structure Place where
  name : String
  street : String
  city : String
  state : String
  zip : String
  country : String
deriving DecidableEq, Repr

/-- A scraped location-details dictionary. -/
structure ScrapedLocation where
  isOnline : Bool
  place : Place
deriving DecidableEq, Repr

/-- The dictionary returned by `get_event_details_from_user`
(`start_time`, `end_time`, `event_time_zone`, optionally merged
location keys or manually entered ones). -/
structure FinalDetails where
  startInstant : Int
  endInstant : Int
  eventTimeZone : String
  isOnline : Option Bool
  place : Option Place
deriving DecidableEq, Repr

/-- Where `start_date_str` came from: converted from the scraped
`"<Mon> <day>"` date (the Python code formats it as `"%Y-%m-%d"` and
re-parses it, an identity round trip on valid dates), or raw operator
input still to be parsed by `strptime("%Y-%m-%d")`. -/
inductive DateSource where
  | fromScraped (y m d : Nat)
  | fromInput (s : String)
deriving DecidableEq, Repr

/-- Model of Python `input()` over the operator-response list:
an exhausted list raises `EOFError`. -/
def takeInput (inputs : List String) : Except String (String × List String) :=
  match inputs with
  | [] => .error "EOFError"
  | x :: rest => .ok (x, rest)

/-- The `float(input("- Event duration in hours ..."))` prompt:
consume one response and parse it, raising `ValueError` on junk. -/
def promptDuration (inputs : List String) : Except String (Nat × List String) := do
  let (resp, rest) ← takeInput inputs
  match parseFloatMinutes resp with
  | some v => pure (v, rest)
  | none => .error "ValueError: float"

/-- Model of `get_event_details_from_user(event_name,
scraped_location_details, scraped_time, scraped_date)`
(`src/create_fb_event.py` lines 530–605).  `currentYear` models
`datetime.now().year`; `inputs` are the operator's responses in prompt
order.  Mirrors the source faithfully:

* the scraped time range is parsed with the overnight adjustment, with
  `start_time_obj` surviving a failed end-half parse;
* the date prompt accepts an override, converts the scraped
  `"<Mon> <day>"` on an empty response, and re-prompts if conversion
  fails;
* a start-time prompt happens only when no scraped start parsed, and a
  duration prompt whenever `duration_hours` is falsy (`None` **or**
  `0.0`);
* the timezone response defaults to `"America/Denver"` when empty, and
  an unknown zone name silently falls back to `"America/Denver"` while
  the response string itself is recorded as `event_time_zone`;
* date and time strings are parsed after the prompts, raising
  `ValueError` on malformed values;
* the scraped location dictionary is merged when present, otherwise the
  operator is asked for the online flag and, for physical events, the
  place fields. -/
def get_event_details_from_user (scrapedLocation : Option ScrapedLocation)
    (scrapedTime scrapedDate : Option String)
    (currentYear : Nat) (inputs : List String) : Except String FinalDetails := do
  let (startTimeObj, durationScraped) :=
    match scrapedTime with
    | none => ((none : Option Nat), (none : Option Nat))
    | some t => parseScrapedTimeHalves t
  let (dateSource, inputs) ←
    (match scrapedDate with
     | some d => do
       let (resp, rest) ← takeInput inputs
       if trimString resp = "" then
         match parseMonthDayYear d currentYear with
         | some (y, m, dd) => pure (DateSource.fromScraped y m dd, rest)
         | none => do
           let (resp2, rest2) ← takeInput rest
           pure (DateSource.fromInput resp2, rest2)
       else
         pure (DateSource.fromInput resp, rest)
     | none => do
       let (resp, rest) ← takeInput inputs
       pure (DateSource.fromInput resp, rest) :
     Except String (DateSource × List String))
  let (timeSource, inputs) ←
    (match startTimeObj with
     | some s => pure (Sum.inl s, inputs)
     | none => do
       let (resp, rest) ← takeInput inputs
       pure (Sum.inr resp, rest) :
     Except String (Sum Nat String × List String))
  let (durationFinal, inputs) ←
    (match durationScraped with
     | some dm => if dm = 0 then promptDuration inputs else pure (dm, inputs)
     | none => promptDuration inputs :
     Except String (Nat × List String))
  let (tzResp, inputs) ← takeInput inputs
  let (timezoneStr, tz) := resolveTimezone tzResp
  let (y, m, d) ←
    (match dateSource with
     | .fromScraped y m d => pure (y, m, d)
     | .fromInput s =>
       match parseDateYMD s with
       | some x => pure x
       | none => .error "ValueError: date" :
     Except String (Nat × Nat × Nat))
  let finalStartMin ←
    (match timeSource with
     | .inl s => pure s
     | .inr str =>
       match parseTime24 str with
       | some v => pure v
       | none => .error "ValueError: time" :
     Except String Nat)
  let startLocal : Int := daysFromCivil y m d * 1440 + finalStartMin
  let startInstant : Int := startLocal - zoneOffsetMin tz
  let endInstant : Int := startInstant + durationFinal
  match scrapedLocation with
  | some l =>
    pure { startInstant, endInstant, eventTimeZone := timezoneStr,
           isOnline := some l.isOnline, place := some l.place }
  | none => do
    let (ans, inputs) ← takeInput inputs
    if lowerString ans == "y" then
      pure { startInstant, endInstant, eventTimeZone := timezoneStr,
             isOnline := some true, place := none }
    else do
      let (vn, i1) ← takeInput inputs
      let (stv, i2) ← takeInput i1
      let (ci, i3) ← takeInput i2
      let (sta, i4) ← takeInput i3
      let (zi, _) ← takeInput i4
      pure { startInstant, endInstant, eventTimeZone := timezoneStr,
             isOnline := some false,
             place := some ⟨vn, stv, ci, sta, zi, "US"⟩ }

/-! ## Venue-reference extraction (`src/create_fb_event.py`)

A parsed document is modelled by its anchor elements (href plus visible
text) and the lines of its visible text (`soup.get_text().split('\n')`). -/

/-- An `<a>` element: target and visible text. -/
structure Anchor where
  href : String
  text : String
deriving DecidableEq, Repr

/-- A parsed event page. -/
structure Doc where
  anchors : List Anchor
  textLines : List String
deriving DecidableEq, Repr

/-- The site base URL (`BASE_PASITO_URL`). -/
def basePasitoUrl : String := "https://pasito.fun"

/-- Tier 1 of `find_location_links`: an anchor whose href matches the
anchored regex `^/l/` (BeautifulSoup applies `re.search`, so the `^`
anchor makes this a prefix test). -/
def isLocationPathLink (a : Anchor) : Bool :=
  isPrefixList "/l/".data a.href.data

/-- The location-indicating keywords of tier 2. -/
def locationKeywords : List String := ["venue", "location", "address"]

/-- Tier 2 of `find_location_links`: the anchor text contains a
location keyword (case-insensitively) and the href is site-relative. -/
def isKeywordLocationLink (a : Anchor) : Bool :=
  locationKeywords.any (fun k => isInfixList k.data (lowerString a.text).data)
    && isPrefixList "/".data a.href.data

/-- Model of `find_location_links(soup)` (`src/create_fb_event.py`
lines 58–88): first any `^/l/` anchor (the first one wins), else the
first keyword anchor with a relative target; the result is the absolute
location URL and the stripped anchor text as venue name. -/
def find_location_links (doc : Doc) : Option (String × String) :=
  match doc.anchors.find? isLocationPathLink with
  | some a => some (basePasitoUrl ++ a.href, trimString a.text)
  | none =>
    (doc.anchors.find? isKeywordLocationLink).map
      (fun a => (basePasitoUrl ++ a.href, trimString a.text))

/-- Match of the tier-3 regex `^([A-Za-z\s]+),\s*([A-Z]{2})$` against a
stripped line, returning the stripped city text and the state code. -/
def matchCityState (l : List Char) : Option (String × String) :=
  match splitOnChar ',' l with
  | [a, b] =>
    let b' := b.dropWhile Char.isWhitespace
    if a ≠ [] ∧ a.all (fun c => c.isAlpha ∨ c.isWhitespace) ∧
       b'.length = 2 ∧ b'.all Char.isUpper then
      some (trimString ⟨a⟩, ⟨b'⟩)
    else none
  | _ => none

/-- The disqualifying words of the tier-3 city heuristic. -/
def disqualifyingWords : List String := ["series", "organizer", "social"]

/-- Model of `extract_location_from_text(soup)` (the text fallback tier
of `src/create_fb_event.py`): scan stripped lines for a
`"<words>, <STATE>"` pattern whose city part is longer than two
characters and contains no disqualifying word; the first hit becomes a
location dictionary with only city/state populated. -/
def extract_location_from_text (textLines : List String) : Option ScrapedLocation :=
  (textLines.findSome? (fun ln =>
    match matchCityState (trimString ln).data with
    | some (city, st) =>
      if city.length > 2 ∧
         ¬ disqualifyingWords.any
             (fun w => isInfixList w.data (lowerString city).data) then
        some (city, st)
      else none
    | none => none)).map
    (fun (city, st) =>
      { isOnline := false,
        place := { name := city ++ ", " ++ st, street := "", city := city,
                   state := st, zip := "", country := "US" } })

/-- Model of the location orchestration of `scrape_pasito_event`
(`src/create_fb_event.py` lines 176–190): follow a location link when
one is found and resolve it (the resolver abstracts
`scrape_address_from_location_page`); fall back to the text tier when
the link route produces nothing. -/
def scrapeLocationDetails (resolve : String → String → Option ScrapedLocation)
    (doc : Doc) : Option ScrapedLocation :=
  match find_location_links doc with
  | some (url, vname) =>
    match resolve url vname with
    | some d => some d
    | none => extract_location_from_text doc.textLines
  | none => extract_location_from_text doc.textLines

/-! ## Partial-address fallback of `scrape_address_from_location_page`
(`src/pasito_event_scraper.py` lines 294–339)

The extraction tiers of that function produce a street/city/state/zip
quadruple (each `""` when not recovered) and an optional venue name;
this models the final assembly:

```python
if street_address and city and state:
    location = {..., "place": {"name": venue_name or "Venue", ...}}
    return location
else:
    if venue_name:
        location = {..., "location": {"street": "", "city": "", ...}}
        return location
    return None
```
-/

/-- Final assembly of `scrape_address_from_location_page`: full address
only when street, city and state were all recovered; otherwise a
venue-name-only record with every address sub-field empty; `none` when
not even a name is known.  `venueName = some ""` models a falsy Python
string. -/
def scrape_address_from_location_page (venueName : Option String)
    (street city state zipc : String) : Option ScrapedLocation :=
  if street ≠ "" ∧ city ≠ "" ∧ state ≠ "" then
    some { isOnline := false,
           place := { name := match venueName with
                              | some v => if v = "" then "Venue" else v
                              | none => "Venue",
                      street := street, city := city, state := state,
                      zip := zipc, country := "US" } }
  else
    match venueName with
    | some v =>
      if v ≠ "" then
        some { isOnline := false,
               place := { name := v, street := "", city := "", state := "",
                          zip := "", country := "US" } }
      else none
    | none => none

/-! ## In-page title heuristic (`src/create_fb_event.py` lines 126–133)

```python
event_title_in_page = None
for i, line in enumerate(lines):
    line = line.strip()
    if line and '🕘' in lines[i+1:i+3] if i+1 < len(lines) else False:
        event_title_in_page = line
        break
```

The condition parses as the conditional expression
`(line and '🕘' in lines[i+1:i+3]) if i+1 < len(lines) else False`, and
`'🕘' in lines[i+1:i+3]` is **list membership**: it holds only when one
of the next two *raw* lines is exactly the string `"🕘"`, not when a
line merely contains the marker. -/

/-- The fixed time-marker string. -/
def timeEmoji : String := "🕘"

/-- Model of the in-page-title scan: the first stripped non-empty line
such that one of the next two raw lines equals `"🕘"` exactly. -/
def findEventTitleInPage : List String → Option String
  | [] => none
  | [_] => none
  | a :: b :: rest =>
    let s := trimString a
    let lookahead : Bool :=
      (b == timeEmoji) || (match rest with
                           | c :: _ => c == timeEmoji
                           | [] => false)
    if s ≠ "" ∧ lookahead = true then
      some s
    else findEventTitleInPage (b :: rest)

/-- Name selection of `scrape_pasito_event` (lines 113–116 and 148–150):
the `<title>` metadata text unless an in-page title was found. -/
def scrapedEventName (metadataTitle : String) (textLines : List String) : String :=
  match findEventTitleInPage textLines with
  | some t => t
  | none => metadataTitle

/-! ## Event processor (`src/pasito_event_scripts/event_processor.py`)

`process_event_data` validates scraped fields and
`_process_location_data` validates the location dictionary.  Python
dictionary values are modelled as `Option String` (`none` for a missing
key); a value is falsy when missing or the empty string. -/

/-- Python truthiness of a possibly-missing string. -/
def pyTruthyStr : Option String → Bool
  | none => false
  | some s => !(s == "")

/-- The location dictionary produced by `_extract_location`
(name/address/city/country, any possibly missing). -/
structure RawLocation where
  name : Option String
  address : Option String
  city : Option String
  country : Option String
deriving DecidableEq, Repr

/-- An empty Python dict `{}` (the no-location-element case of
`_extract_location`) is falsy. -/
def RawLocation.isEmptyDict (l : RawLocation) : Bool :=
  l.name == none && l.address == none && l.city == none && l.country == none

/-- Python truthiness of the `location` value of the raw event data. -/
def pyTruthyLoc : Option RawLocation → Bool
  | none => false
  | some l => !l.isEmptyDict

/-- The raw event dictionary built by
`event_processor.scrape_pasito_event`. -/
structure RawEvent where
  title : Option String
  description : Option String
  startTime : Option String
  endTime : Option String
  location : Option RawLocation
  coverImage : Option String
  ticketUrl : Option String
  sourceUrl : String
deriving DecidableEq, Repr

/-- Parse an hours/minutes/seconds fragment `"HH:MM"` or `"HH:MM:SS"`
as minutes since midnight (seconds are below the model's resolution). -/
def parseHMS (l : List Char) : Option Nat :=
  match splitOnChar ':' l with
  | [hs, ms] =>
    match digitsToNat? hs, digitsToNat? ms with
    | some h, some m => if h ≤ 23 ∧ m ≤ 59 then some (h * 60 + m) else none
    | _, _ => none
  | [hs, ms, ss] =>
    match digitsToNat? hs, digitsToNat? ms, digitsToNat? ss with
    | some h, some m, some s =>
      if h ≤ 23 ∧ m ≤ 59 ∧ s ≤ 59 then some (h * 60 + m) else none
    | _, _, _ => none
  | _ => none

/-- Parse a `"+HH:MM"` offset tail (after the `'+'`) as minutes. -/
def parseOffsetMin (l : List Char) : Option Int :=
  match splitOnChar ':' l with
  | [hs, ms] =>
    match digitsToNat? hs, digitsToNat? ms with
    | some h, some m => if h ≤ 23 ∧ m ≤ 59 then some ((h * 60 + m : Nat) : Int) else none
    | _, _ => none
  | _ => none

/-- Model of `_validate_datetime`'s
`datetime.fromisoformat(dt_str.replace("Z", "+00:00"))` for the
`"YYYY-MM-DDTHH:MM[:SS][+HH:MM]"` shapes (negative offsets are outside
the model; no claim depends on them).  Returns an instant in minutes. -/
def parseIsoDatetime (s : String) : Option Int :=
  let replaced := (s.data.map (fun c =>
    if c = 'Z' then "+00:00".data else [c])).flatten
  match splitOnChar 'T' replaced with
  | [ds, ts] => do
    let (y, m, d) ← parseDateYMDChars ds
    let (timePart, offMin) ←
      match splitOnChar '+' ts with
      | [t] => some (t, (0 : Int))
      | [t, off] => do
        let o ← parseOffsetMin off
        some (t, o)
      | _ => none
    let mins ← parseHMS timePart
    some (daysFromCivil y m d * 1440 + mins - offMin)
  | _ => none

/-- Model of `_process_location_data(location)`
(`src/pasito_event_scripts/event_processor.py` lines 407–419): `name`
and `address` are required (checked in that order, a falsy value raises
`ValidationError`); `city` and `country` default to `""`. -/
structure ProcessedLocation where
  name : String
  address : String
  city : String
  country : String
deriving DecidableEq, Repr

/-- See `ProcessedLocation`. -/
def process_location_data (loc : RawLocation) : Except String ProcessedLocation :=
  if pyTruthyStr loc.name = false then
    .error "Missing required location field: name"
  else if pyTruthyStr loc.address = false then
    .error "Missing required location field: address"
  else
    .ok { name := trimString (loc.name.getD ""),
          address := trimString (loc.address.getD ""),
          city := trimString (loc.city.getD ""),
          country := trimString (loc.country.getD "") }

/-- Model of `format_event_description(description, ticket_url,
source_url, logger)`: strip, optionally append a ticket line, append
the source attribution. -/
def format_event_description (description : String) (ticketUrl : Option String)
    (sourceUrl : String) : String :=
  let d := trimString description
  let d := match ticketUrl with
           | some t => if t = "" then d else d ++ "\n\n🎟️ Get tickets: " ++ t
           | none => d
  d ++ "\n\nSource: " ++ sourceUrl

/-- The processed event record returned by `process_event_data`. -/
structure ProcessedEvent where
  title : String
  description : String
  startTime : Int
  endTime : Option Int
  location : ProcessedLocation
  coverImage : Option String
  ticketUrl : Option String
deriving DecidableEq, Repr

/-- The body of `process_event_data`'s `try` block: required-field
validation in source order, datetime validation, location processing,
description formatting. -/
def processEventDataCore (raw : RawEvent) : Except String ProcessedEvent :=
  if pyTruthyStr raw.title = false then
    .error "Missing required field: title"
  else if pyTruthyStr raw.description = false then
    .error "Missing required field: description"
  else if pyTruthyStr raw.startTime = false then
    .error "Missing required field: start_time"
  else if pyTruthyLoc raw.location = false then
    .error "Missing required field: location"
  else do
    let st ←
      (match parseIsoDatetime (raw.startTime.getD "") with
       | some v => pure v
       | none => .error "Invalid datetime format" : Except String Int)
    let en ←
      (match raw.endTime with
       | some e =>
         if e = "" then pure none
         else
           match parseIsoDatetime e with
           | some v => pure (some v)
           | none => .error "Invalid datetime format"
       | none => pure none : Except String (Option Int))
    let loc ← process_location_data (raw.location.getD ⟨none, none, none, none⟩)
    let desc := format_event_description (raw.description.getD "")
                  raw.ticketUrl raw.sourceUrl
    pure { title := trimString (raw.title.getD ""), description := desc,
           startTime := st, endTime := en, location := loc,
           coverImage := raw.coverImage, ticketUrl := raw.ticketUrl }

/-- Model of `process_event_data(raw_data, logger)`
(`src/pasito_event_scripts/event_processor.py` lines 92–148): any
exception in the body is caught and re-raised as
`ValidationError(f"Failed to process event data: {e}")`. -/
def process_event_data (raw : RawEvent) : Except String ProcessedEvent :=
  match processEventDataCore raw with
  | .ok v => .ok v
  | .error e => .error ("Failed to process event data: " ++ e)

/-! ## Batch driver (`src/create_fb_event.py` `main`, lines 639–706) -/

/-- What `scrape_pasito_event(event_id)` returned for one event id:
`fetchError` models the `None` produced when its internal
`except requests.RequestException` handler fires. -/
inductive ScrapeOutcome where
  | fetchError
  | ok (name description coverUrl : String)
       (scrapedTime scrapedDate : Option String)
       (locationDetails : Option ScrapedLocation)
deriving DecidableEq, Repr

/-- One event id's environment in a batch run: its scrape outcome and
the operator responses consumed while processing it. -/
structure EventTask where
  scrape : ScrapeOutcome
  inputs : List String
deriving DecidableEq, Repr

/-- The final per-event payload assembled by `main` (the description is
carried through `translate_description`, which catches all its own
errors and degrades to the original text). -/
structure FinalPayload where
  name : String
  description : String
  coverUrl : String
  details : FinalDetails
deriving DecidableEq, Repr

/-- The body of `main`'s per-event loop iteration: a fetch-failed scrape
is skipped (`continue`, modelled as `none`); otherwise the event details
are resolved, and any exception raised there propagates — the loop body
has no try/except of its own. -/
def processOne (currentYear : Nat) (t : EventTask) :
    Except String (Option FinalPayload) :=
  match t.scrape with
  | .fetchError => .ok none
  | .ok name description coverUrl stime sdate loc => do
    let dtls ← get_event_details_from_user loc stime sdate currentYear t.inputs
    pure (some { name, description, coverUrl, details := dtls })

/-- Model of `main`'s `for event_id in unique_event_ids:` loop: events
are processed sequentially and an exception escaping one iteration
aborts the whole batch. -/
def runBatch (currentYear : Nat) : List EventTask →
    Except String (List (Option FinalPayload))
  | [] => .ok []
  | t :: ts => do
    let r ← processOne currentYear t
    let rs ← runBatch currentYear ts
    pure (r :: rs)

/-! ## Event-id deduplication (`src/create_fb_event.py` line 672)

```python
unique_event_ids = list(dict.fromkeys(all_event_ids))
```

`dict.fromkeys` keeps insertion order and the first occurrence of each
key. -/

/-- Model of `list(dict.fromkeys(all_event_ids))`: fold over the list,
appending each id not already present. -/
def uniqueEventIds (l : List String) : List String :=
  l.foldl (fun acc x => if memb x acc then acc else acc ++ [x]) []

/-- Specification-side description of first-occurrence deduplication,
for comparison with `uniqueEventIds`: keep the head, then deduplicate
the tail with all copies of the head removed. -/
def firstOccurrenceOrder : List String → List String
  | [] => []
  | x :: xs => x :: firstOccurrenceOrder (xs.filter (fun y => !(y == x)))
termination_by l => l.length
decreasing_by
  simp only [List.length_cons]
  exact Nat.lt_succ_of_le (List.length_filter_le _ _)

/-! ## Helper lemmas -/

/-- Any clock time parsed by the 12-hour parser is below one day. -/
theorem parseTime12Chars_lt_1440 {l : List Char} {v : Nat}
    (h : parseTime12Chars l = some v) : v < 1440 := by
  unfold parseTime12Chars at h
  split at h
  · split at h
    · split at h
      · split at h
        · rename_i hg
          split at h
          · simp only [Option.some.injEq] at h
            omega
          · split at h
            · simp only [Option.some.injEq] at h
              omega
            · exact absurd h (by simp)
        · exact absurd h (by simp)
      · exact absurd h (by simp)
    · exact absurd h (by simp)
  · exact absurd h (by simp)

/-- The `parseTime12` bound on `String` inputs. -/
theorem parseTime12_lt_1440 {s : String} {v : Nat}
    (h : parseTime12 s = some v) : v < 1440 :=
  parseTime12Chars_lt_1440 h

/-- Membership `memb` distributes over append. -/
theorem memb_append (y : String) (l₁ l₂ : List String) :
    memb y (l₁ ++ l₂) = (memb y l₁ || memb y l₂) := by
  induction l₁ with
  | nil => simp [memb]
  | cons a as ih => simp [memb, ih, Bool.or_assoc]

/-- The fold step of `uniqueEventIds`. -/
def dedupStep (acc : List String) (x : String) : List String :=
  if memb x acc then acc else acc ++ [x]

/-- Filtering by non-membership in `acc ++ [x]` is filtering by
non-membership in `acc` and then dropping copies of `x`. -/
theorem filter_memb_append (x : String) (acc : List String) (xs : List String) :
    xs.filter (fun y => !memb y (acc ++ [x]))
      = (xs.filter (fun y => !memb y acc)).filter (fun y => !(y == x)) := by
  induction xs with
  | nil => rfl
  | cons a as ih =>
    cases h1 : memb a acc with
    | true =>
      have : memb a (acc ++ [x]) = true := by simp [memb_append, h1]
      simp only [List.filter_cons, this, h1, Bool.not_true, Bool.false_eq_true,
        if_false, ih]
    | false =>
      cases h2 : (a == x) with
      | true =>
        have : memb a (acc ++ [x]) = true := by simp [memb_append, h1, memb, h2]
        simp only [List.filter_cons, this, h1, h2, Bool.not_true, Bool.not_false,
          Bool.false_eq_true, if_false, if_true, ih]
      | false =>
        have : memb a (acc ++ [x]) = false := by simp [memb_append, h1, memb, h2]
        simp only [List.filter_cons, this, h1, h2, Bool.not_true, Bool.not_false,
          if_true, ih]

/-- Folding `dedupStep` from an accumulator appends exactly the
first-occurrence deduplication of the not-yet-seen elements. -/
theorem foldl_dedupStep_eq (l : List String) : ∀ acc : List String,
    l.foldl dedupStep acc
      = acc ++ firstOccurrenceOrder (l.filter (fun y => !memb y acc)) := by
  induction l with
  | nil => intro acc; simp [firstOccurrenceOrder]
  | cons x xs ih =>
    intro acc
    cases h : memb x acc with
    | true =>
      have hstep : dedupStep acc x = acc := by simp [dedupStep, h]
      have hfc : (x :: xs).filter (fun y => !memb y acc)
          = xs.filter (fun y => !memb y acc) := by
        simp [List.filter_cons, h]
      rw [List.foldl_cons, hstep, hfc, ih acc]
    | false =>
      have hstep : dedupStep acc x = acc ++ [x] := by simp [dedupStep, h]
      have hfc : (x :: xs).filter (fun y => !memb y acc)
          = x :: xs.filter (fun y => !memb y acc) := by
        simp [List.filter_cons, h]
      rw [List.foldl_cons, hstep, ih (acc ++ [x]), filter_memb_append x acc xs,
          hfc,
          show firstOccurrenceOrder (x :: xs.filter (fun y => !memb y acc))
            = x :: firstOccurrenceOrder
                ((xs.filter (fun y => !memb y acc)).filter (fun y => !(y == x)))
          from by rw [firstOccurrenceOrder]]
      simp

/-- Function `uniqueEventIds` computes exactly the first-occurrence order. -/
theorem uniqueEventIds_eq_firstOccurrenceOrder (l : List String) :
    uniqueEventIds l = firstOccurrenceOrder l := by
  have h := foldl_dedupStep_eq l []
  simp only [List.nil_append] at h
  have hf : l.filter (fun y => !memb y []) = l := by
    induction l with
    | nil => rfl
    | cons a as ih => simp [List.filter, memb, ih]
  rw [hf] at h
  simpa [uniqueEventIds, dedupStep] using h

/-- Membership is preserved by first-occurrence deduplication. -/
theorem mem_firstOccurrenceOrder : ∀ n (l : List String), l.length ≤ n →
    ∀ x, (x ∈ firstOccurrenceOrder l ↔ x ∈ l) := by
  intro n
  induction n with
  | zero =>
    intro l h x
    have : l = [] := List.length_eq_zero.mp (Nat.le_zero.mp h)
    subst this
    simp [firstOccurrenceOrder]
  | succ n ih =>
    intro l h x
    match l with
    | [] => simp [firstOccurrenceOrder]
    | a :: as =>
      rw [show firstOccurrenceOrder (a :: as)
            = a :: firstOccurrenceOrder (as.filter (fun y => !(y == a)))
          from by rw [firstOccurrenceOrder]]
      have hlen : (as.filter (fun y => !(y == a))).length ≤ n := by
        have := List.length_filter_le (fun y => !(y == a)) as
        simp only [List.length_cons] at h
        omega
      constructor
      · intro hx
        rcases List.mem_cons.mp hx with h1 | h1
        · exact h1 ▸ List.mem_cons_self a as
        · have := (ih _ hlen x).mp h1
          exact List.mem_cons.mpr (Or.inr (List.mem_filter.mp this).1)
      · intro hx
        rcases List.mem_cons.mp hx with h1 | h1
        · exact h1 ▸ List.mem_cons_self a _
        · by_cases hxa : x = a
          · exact hxa ▸ List.mem_cons_self a _
          · refine List.mem_cons.mpr (Or.inr ((ih _ hlen x).mpr ?_))
            refine List.mem_filter.mpr ⟨h1, ?_⟩
            simp [hxa]

/-- First-occurrence deduplication yields a duplicate-free list. -/
theorem nodup_firstOccurrenceOrder : ∀ n (l : List String), l.length ≤ n →
    (firstOccurrenceOrder l).Nodup := by
  intro n
  induction n with
  | zero =>
    intro l h
    have : l = [] := List.length_eq_zero.mp (Nat.le_zero.mp h)
    subst this
    simp [firstOccurrenceOrder]
  | succ n ih =>
    intro l h
    match l with
    | [] => simp [firstOccurrenceOrder]
    | a :: as =>
      rw [show firstOccurrenceOrder (a :: as)
            = a :: firstOccurrenceOrder (as.filter (fun y => !(y == a)))
          from by rw [firstOccurrenceOrder]]
      have hlen : (as.filter (fun y => !(y == a))).length ≤ n := by
        have := List.length_filter_le (fun y => !(y == a)) as
        simp only [List.length_cons] at h
        omega
      refine List.nodup_cons.mpr ⟨?_, ih _ hlen⟩
      intro hmem
      have := (mem_firstOccurrenceOrder n _ hlen a).mp hmem
      have := (List.mem_filter.mp this).2
      simp at this

/-! ## Claim theorems -/

/-- C1: for every scraped time range whose halves parse as 12-hour clock
times, an end chronologically before the start is advanced by one
calendar day (1440 minutes); concretely, for start `"6:30 PM"` and end
`"12:30 AM"` the normalized duration is 360 minutes (6 hours) and, for
any start day, the end instant falls on the following calendar day. -/
theorem c1_overnight_advance (a b : String) (s e : Nat)
    (ha : parseTime12 a = some s) (hb : parseTime12 b = some e) (hlt : e < s) :
    adjustEndMinutes s e = e + 1440
    ∧ parseScrapedTimeHalves "6:30 PM - 12:30 AM" = (some 1110, some 360)
    ∧ durationMinutes 1110 30 = 360
    ∧ ∀ day : Nat, (day * 1440 + 1110 + 360) / 1440 = (day * 1440 + 1110) / 1440 + 1 := by
  refine ⟨?_, by rfl, by rfl, ?_⟩
  · unfold adjustEndMinutes
    rw [if_pos hlt]
  · intro day
    omega

/-- Witness for C1 at start `"6:30 PM"` (1110 min), end `"12:30 AM"` (30 min). -/
theorem c1_overnight_advance_witness :
    parseTime12 "6:30 PM" = some 1110 ∧ parseTime12 "12:30 AM" = some 30
    ∧ adjustEndMinutes 1110 30 = 30 + 1440 :=
  ⟨by rfl, by rfl,
   (c1_overnight_advance "6:30 PM" "12:30 AM" 1110 30 (by rfl) (by rfl)
      (by decide)).1⟩

/-- C2 counterexample: the well-formed range `"7:00 PM - 7:00 PM"`
(scraped date `"Jun 6"`) yields duration 0; the zero duration is falsy,
so the operator's duration is consulted, and with response `"0"` the
produced time window has `end_instant - start_instant = 0`, not `> 0`. -/
theorem c2_counterexample :
    get_event_details_from_user
        (some ⟨false, ⟨"Boulder, CO", "", "Boulder", "CO", "", "US"⟩⟩)
        (some "7:00 PM - 7:00 PM") (some "Jun 6") 2025 ["", "0", ""]
      = .ok ⟨29154360, 29154360, "America/Denver", some false,
             some ⟨"Boulder, CO", "", "Boulder", "CO", "", "US"⟩⟩
    ∧ ¬ (0 < (29154360 : Int) - 29154360) :=
  ⟨by rfl, by decide⟩

/-- C2 amended: whenever the two halves of the scraped range parse to
*distinct* clock times, the normalized duration is strictly positive
(so `end_instant - start_instant > 0`); equal scraped times yield a
zero duration, which the code then replaces with an operator-supplied
value. -/
theorem c2_amended (a b : String) (s e : Nat)
    (ha : parseTime12 a = some s) (hb : parseTime12 b = some e) (hne : e ≠ s) :
    0 < durationMinutes s e := by
  have hsb := parseTime12_lt_1440 ha
  unfold durationMinutes adjustEndMinutes
  split
  · omega
  · omega

/-- Witness for C2 amended at `"6:30 PM"`/`"7:30 PM"`. -/
theorem c2_amended_witness :
    parseTime12 "6:30 PM" = some 1110 ∧ parseTime12 "7:30 PM" = some 1170
    ∧ 0 < durationMinutes 1110 1170 :=
  ⟨by rfl, by rfl,
   c2_amended "6:30 PM" "7:30 PM" 1110 1170 (by rfl) (by rfl) (by decide)⟩

/-- C10: the batch driver's deduplication
`list(dict.fromkeys(all_event_ids))` keeps exactly one copy of each
identifier, preserves first-occurrence order (it equals the
first-occurrence recursion), and neither adds nor loses identifiers. -/
theorem c10_unique_first_occurrence (l : List String) :
    uniqueEventIds l = firstOccurrenceOrder l
    ∧ (uniqueEventIds l).Nodup
    ∧ ∀ x, (x ∈ uniqueEventIds l ↔ x ∈ l) := by
  refine ⟨uniqueEventIds_eq_firstOccurrenceOrder l, ?_, ?_⟩
  · rw [uniqueEventIds_eq_firstOccurrenceOrder l]
    exact nodup_firstOccurrenceOrder l.length l (Nat.le_refl _)
  · intro x
    rw [uniqueEventIds_eq_firstOccurrenceOrder l]
    exact mem_firstOccurrenceOrder l.length l (Nat.le_refl _) x

/-- C3 counterexample: with time, date and location all missing, the
detail-resolution step consults the operator; with empty responses it
raises `ValueError` at the duration prompt — no 19:00/3-hour/placeholder
defaults exist, so the pipeline does not "never raise". -/
theorem c3_counterexample :
    get_event_details_from_user none none none 2025 ["", "", "", "", ""]
      = .error "ValueError: float" := by
  rfl

/-- C3 amended: with time, date and location all missing, the code
substitutes no documented defaults: it requires operator-supplied date,
start time and duration (raising on empty responses, see the
counterexample) and builds the record from exactly those values; the
only default applied is the timezone `America/Denver` on an empty zone
response.  Here the operator's 20:00 start and 2-hour duration — not
19:00 and 3 hours — appear in the result. -/
theorem c3_amended :
    get_event_details_from_user none none none 2025
        ["2025-06-06", "20:00", "2", "", "y"]
      = .ok ⟨29154420, 29154540, "America/Denver", some true, none⟩
    ∧ (29154540 - 29154420 : Int) = 120 :=
  ⟨by rfl, by decide⟩

/-- C4 counterexample: the unknown zone name `"Not/AZone"` does not
produce an error — normalization succeeds, silently computing the
instants in the default zone while recording the unknown name. -/
theorem c4_counterexample :
    pytzTimezone "Not/AZone" = none
    ∧ get_event_details_from_user none none none 2025
        ["2025-06-06", "20:00", "2", "Not/AZone", "y"]
      = .ok ⟨29154420, 29154540, "Not/AZone", some true, none⟩ :=
  ⟨by rfl, by rfl⟩

/-- C4 amended: for every unknown non-empty zone name, time
normalization does not error; it silently substitutes the default zone
`America/Denver` for computing instants while keeping the supplied name
as the recorded `event_time_zone`. -/
theorem c4_amended (resp : String) (hne : resp ≠ "")
    (hunknown : pytzTimezone resp = none) :
    resolveTimezone resp = (resp, "America/Denver") := by
  simp [resolveTimezone, hne, hunknown]

/-- Witness for C4 amended at the unknown zone name `"Not/AZone"`. -/
theorem c4_amended_witness :
    resolveTimezone "Not/AZone" = ("Not/AZone", "America/Denver") :=
  c4_amended "Not/AZone" (by decide) (by rfl)

/-- C5 counterexample: an event whose resolved location has a venue name
but an empty address is rejected by downstream processing —
`process_event_data` raises a `ValidationError` naming the missing
address field instead of tolerating the partial address. -/
theorem c5_counterexample :
    process_event_data ⟨some "Test Event", some "Desc",
        some "2024-03-20T10:00:00+00:00", none,
        some ⟨some "The Hall", some "", none, none⟩,
        none, none, "https://pasito.fun/e/x"⟩
      = .error "Failed to process event data: Missing required location field: address" := by
  rfl

/-- C5 amended: downstream location processing requires both a non-empty
name and a non-empty address (a partial address with venue name only
fails with an error naming the missing field); only the city and country
sub-fields may be empty or missing. -/
theorem c5_amended (loc : RawLocation) (hname : pyTruthyStr loc.name = true) :
    (pyTruthyStr loc.address = false →
      process_location_data loc = .error "Missing required location field: address")
    ∧ (pyTruthyStr loc.address = true →
      process_location_data loc
        = .ok ⟨trimString (loc.name.getD ""), trimString (loc.address.getD ""),
               trimString (loc.city.getD ""), trimString (loc.country.getD "")⟩) := by
  constructor
  · intro haddr
    simp [process_location_data, hname, haddr]
  · intro haddr
    simp [process_location_data, hname, haddr]

/-- Witness for C5 amended: name `"The Hall"`, empty address. -/
theorem c5_amended_witness :
    process_location_data ⟨some "The Hall", some "", none, none⟩
      = .error "Missing required location field: address" :=
  (c5_amended ⟨some "The Hall", some "", none, none⟩ (by rfl)).1 (by rfl)

/-- C6: when a document contains a tier-1 venue link (an anchor whose
target matches the fixed `/l/` location path prefix) — even alongside a
tier-3 city-text pattern — venue extraction selects the tier-1 result:
`find_location_links` returns that anchor, and the orchestrated location
is the tier-1 resolution whenever it produces anything; lower tiers are
consulted only when the higher route yields nothing. -/
theorem c6_tier1_priority (doc : Doc) (a : Anchor)
    (resolve : String → String → Option ScrapedLocation)
    (d cityLoc : ScrapedLocation)
    (h1 : doc.anchors.find? isLocationPathLink = some a)
    (h3 : extract_location_from_text doc.textLines = some cityLoc)
    (hr : resolve (basePasitoUrl ++ a.href) (trimString a.text) = some d) :
    find_location_links doc = some (basePasitoUrl ++ a.href, trimString a.text)
    ∧ scrapeLocationDetails resolve doc = some d := by
  have hf : find_location_links doc
      = some (basePasitoUrl ++ a.href, trimString a.text) := by
    unfold find_location_links
    rw [h1]
  refine ⟨hf, ?_⟩
  have hred : scrapeLocationDetails resolve doc
      = match resolve (basePasitoUrl ++ a.href) (trimString a.text) with
        | some x => some x
        | none => extract_location_from_text doc.textLines := by
    unfold scrapeLocationDetails
    rw [hf]
  rw [hred, hr]

/-- Witness for C6: a document with both a `/l/` link and a
`"Boulder, CO"` tier-3 line selects the resolved tier-1 venue. -/
theorem c6_tier1_priority_witness :
    scrapeLocationDetails
        (fun _ _ => some ⟨false, ⟨"The Hall", "100 Main St", "Boulder", "CO",
                                  "80301", "US"⟩⟩)
        ⟨[⟨"/l/the-hall", "The Hall"⟩], ["Boulder, CO"]⟩
      = some ⟨false, ⟨"The Hall", "100 Main St", "Boulder", "CO", "80301", "US"⟩⟩ :=
  (c6_tier1_priority ⟨[⟨"/l/the-hall", "The Hall"⟩], ["Boulder, CO"]⟩
    ⟨"/l/the-hall", "The Hall"⟩
    (fun _ _ => some ⟨false, ⟨"The Hall", "100 Main St", "Boulder", "CO",
                              "80301", "US"⟩⟩)
    ⟨false, ⟨"The Hall", "100 Main St", "Boulder", "CO", "80301", "US"⟩⟩
    ⟨false, ⟨"Boulder, CO", "", "Boulder", "CO", "", "US"⟩⟩
    (by rfl) (by rfl) (by rfl)).2

/-- C7: when no structured street address is recovered (street is empty)
but a venue name is known, the address resolver returns an `Address`
with only the venue name populated and street, city, state and zip all
empty strings — a result distinct from `null` (any partially recovered
city/state is discarded rather than fabricated into a full address). -/
theorem c7_partial_address (v city st z : String) (hv : v ≠ "") :
    scrape_address_from_location_page (some v) "" city st z
      = some ⟨false, ⟨v, "", "", "", "", "US"⟩⟩
    ∧ scrape_address_from_location_page (some v) "" city st z ≠ none := by
  have h : scrape_address_from_location_page (some v) "" city st z
      = some ⟨false, ⟨v, "", "", "", "", "US"⟩⟩ := by
    simp [scrape_address_from_location_page, hv]
  exact ⟨h, by rw [h]; simp⟩

/-- Witness for C7 at venue `"The Hall"` with partial city/state data. -/
theorem c7_partial_address_witness :
    scrape_address_from_location_page (some "The Hall") "" "Boulder" "CO" ""
      = some ⟨false, ⟨"The Hall", "", "", "", "", "US"⟩⟩ :=
  (c7_partial_address "The Hall" "Boulder" "CO" "" (by decide)).1

/-- C8 counterexample: in a two-event batch whose first event scrapes
fine but raises `ValueError` during detail resolution, the whole batch
aborts with that error even though the second event alone processes
successfully — the error is not caught at the per-event boundary. -/
theorem c8_counterexample :
    runBatch 2025
        [⟨.ok "Bad" "d" "c" none none none, ["", "", "", "", ""]⟩,
         ⟨.ok "Good" "d" "c" (some "7:00 PM - 9:00 PM") none
            (some ⟨false, ⟨"Boulder, CO", "", "Boulder", "CO", "", "US"⟩⟩),
          ["2025-06-06", ""]⟩]
      = .error "ValueError: float"
    ∧ processOne 2025
        ⟨.ok "Good" "d" "c" (some "7:00 PM - 9:00 PM") none
           (some ⟨false, ⟨"Boulder, CO", "", "Boulder", "CO", "", "US"⟩⟩),
         ["2025-06-06", ""]⟩
      = .ok (some ⟨"Good", "d", "c",
             ⟨29154360, 29154480, "America/Denver", some false,
              some ⟨"Boulder, CO", "", "Boulder", "CO", "", "US"⟩⟩⟩) :=
  ⟨by rfl, by rfl⟩

/-- C8 amended: only scrape-stage fetch errors are contained (a
fetch-failed event is skipped and the batch continues with the
remaining identifiers); an error raised later in per-event processing
propagates and aborts the whole batch. -/
theorem c8_amended (y : Nat) (t : EventTask) (ts : List EventTask) (e : String)
    (he : processOne y t = .error e) :
    runBatch y (t :: ts) = .error e
    ∧ ∀ ins : List String,
        runBatch y (⟨.fetchError, ins⟩ :: ts)
          = (runBatch y ts).map (fun rs => none :: rs) := by
  constructor
  · simp only [runBatch]
    rw [he]
    rfl
  · intro ins
    simp only [runBatch]
    have h0 : processOne y ⟨ScrapeOutcome.fetchError, ins⟩ = Except.ok none := rfl
    rw [h0]
    cases hrb : runBatch y ts with
    | ok rs => rfl
    | error e2 => rfl

/-- Witness for C8 amended: the single-event bad batch aborts, and a
fetch-failed event is skipped. -/
theorem c8_amended_witness :
    runBatch 2025 [⟨.ok "Bad" "d" "c" none none none, ["", "", "", "", ""]⟩]
      = .error "ValueError: float"
    ∧ runBatch 2025 [⟨.fetchError, []⟩]
      = (runBatch 2025 []).map (fun rs => none :: rs) :=
  ⟨(c8_amended 2025 ⟨.ok "Bad" "d" "c" none none none, ["", "", "", "", ""]⟩ []
      "ValueError: float" (by rfl)).1,
   (c8_amended 2025 ⟨.ok "Bad" "d" "c" none none none, ["", "", "", "", ""]⟩ []
      "ValueError: float" (by rfl)).2 []⟩

/-- C9 (code bug): the in-page-title condition uses Python list
membership, so a line *containing* the time marker never triggers it —
on the spec's own scenario lines the heuristic finds nothing and the
metadata title is kept; the branch fires only when a following raw line
is exactly `"🕘"`, and even two lines ahead, not only the immediately
following one. -/
theorem c9_title_heuristic_dead :
    findEventTitleInPage
        ["Friday Night Social", "🕘 Fri, Jun 6 7:00 PM — 11:00 PM"] = none
    ∧ scrapedEventName "Friday Night Social · Pasito"
        ["Friday Night Social", "🕘 Fri, Jun 6 7:00 PM — 11:00 PM"]
      = "Friday Night Social · Pasito"
    ∧ findEventTitleInPage ["Friday Night Social", "🕘"]
      = some "Friday Night Social"
    ∧ findEventTitleInPage ["Title", "junk", "🕘"] = some "Title" :=
  ⟨by rfl, by rfl, by rfl, by rfl⟩
